import Mathlib

set_option maxHeartbeats 1600000
set_option maxRecDepth 4000

/-! Shallow embedding of nest/topology.py (NeST): namespaces, interfaces, veth
    pairs and the lazily-built traffic-control pipeline, as explicit state
    passing over a world of namespace and interface objects.  Python object
    identity is modelled by indices into the world's object lists; mutation is
    modelled by functional update; a raised exception is an `Except.error`
    result carried next to the (possibly already mutated) world, matching
    Python semantics where attribute mutations survive a propagating
    exception. -/

/-- Identifier produced by the process-wide id generator, or the sentinel used
by the default (host) namespace.  Modelled from the spec (section 4.1): the
id_generator module is not under src; identifiers are opaque unique values
allocated from a monotonic counter and never reused. -/
inductive Ident where
  | default : Ident
  | gen : Nat → Ident
deriving DecidableEq

/-- Rendering of an identifier as the string spliced into auto-generated
interface names.  Modelled from the spec (section 3): identifiers are opaque
short strings; generated ones render as the decimal counter value. -/
def Ident.str : Ident → String
  | Ident.default => "default"
  | Ident.gen n => Nat.repr n

/-- Errors surfaced by the topology layer, named after the spec's taxonomy
(section 7): the source's NotImplementedError on a default namespace is
NamespaceNotAssigned, its ValueError on a bad mode string is InvalidMode, a
failing external command is ExternalCommandFailed, and a dereference of a
missing attribute (Python AttributeError) is AttributeError. -/
inductive Err where
  | namespaceNotAssigned : Err
  | invalidMode : Err
  | attributeError : Err
  | externalCommandFailed : Err
deriving DecidableEq

/-- Address wrapper.  Modelled from the spec (section 4.2): the address module
is not under src; the operations the claims exercise only store and forward an
already-parsed address, kept here as its rendered string. -/
structure Address where
  addr : String
deriving DecidableEq

/-- Runtime value shapes relevant to the identity test in set_qdisc: the
Python guard there is written with `is` against the singleton False, applied
to a bound method object. -/
inductive PyVal where
  | pyBool : Bool → PyVal
  | boundMethod : String → PyVal
deriving DecidableEq

/-- Python `is` identity on the modelled value shapes: two values are the same
object only when they are the same literal; a bound method object is never
the boolean singleton False. -/
def pyIs (a b : PyVal) : Bool := a == b

/-- Decidable equality for raised-or-returned results, so that concrete runs
can be checked by evaluation. -/
instance {e a : Type} [DecidableEq e] [DecidableEq a] : DecidableEq (Except e a) := fun x y =>
  match x, y with
  | Except.ok u, Except.ok v =>
    if h : u = v then Decidable.isTrue (by rw [h])
    else Decidable.isFalse (fun hc => h (Except.ok.inj hc))
  | Except.error u, Except.error v =>
    if h : u = v then Decidable.isTrue (by rw [h])
    else Decidable.isFalse (fun hc => h (Except.error.inj hc))
  | Except.ok _, Except.error _ => Decidable.isFalse (fun hc => Except.noConfusion hc)
  | Except.error _, Except.ok _ => Decidable.isFalse (fun hc => Except.noConfusion hc)

/-- One queueing-discipline node of a traffic-control pipeline (kind, parent
handle, own handle, parameter set), as built by Interface.add_qdisc. -/
structure TCQdisc where
  qdisc : String
  parent : String
  handle : String
  params : List (String × String)
deriving DecidableEq

/-- One class node of a traffic-control pipeline, as built by the source's
add_class method (renamed add_cls here). -/
structure TCCls where
  qdisc : String
  parent : String
  classid : String
  params : List (String × String)
deriving DecidableEq

/-- One filter node of a traffic-control pipeline. -/
structure TCFltr where
  protocol : String
  priority : String
  ftype : String
  flowid : String
  parent : String
  handle : String
  params : List (String × String)
deriving DecidableEq

/-- Logical commands issued to the external engine collaborator.  Modelled
from the spec (section 6): the engine and traffic_control modules are not
under src; each constructor records one request made by the topology layer. -/
inductive EngineCmd where
  | createNs : Ident → EngineCmd
  | createVeth : Ident → Ident → EngineCmd
  | addIntToNs : Ident → Ident → EngineCmd
  | assignIp : Ident → Ident → String → EngineCmd
  | setIntfMode : Ident → Ident → String → EngineCmd
  | setupIfb : Ident → Ident → EngineCmd
  | installQdisc : Ident → Ident → TCQdisc → EngineCmd
  | installCls : Ident → Ident → TCCls → EngineCmd
  | installFltr : Ident → Ident → TCFltr → EngineCmd
  | addFltrRaw : Ident → Ident → String → String → String → String → List (String × String) → EngineCmd
  | tcClsChange : Ident → Ident → String → String → String → EngineCmd
  | tcQdiscChange : Ident → Ident → String → String → String → EngineCmd
  | routeAdd : Ident → String → String → Ident → EngineCmd
deriving DecidableEq

/-- Update a key in a parameter list, or append it when absent.  Modelled from
the spec (section 6): mutate_pipeline_node replaces the named parameter of an
existing pipeline node. -/
def setParam (k v : String) (ps : List (String × String)) : List (String × String) :=
  if ps.any (fun q => q.1 = k) then ps.map (fun q => if q.1 = k then (k, v) else q)
  else ps ++ [(k, v)]

/-- A namespace object: its id (the sentinel Ident.default when constructed
with an empty name), its user-assigned name when one was set, and the list of
owned interfaces (by world index), mirroring Namespace.__init__'s fields. -/
structure NsObj where
  id : Ident
  name : Option String
  interfaces : List Nat
deriving DecidableEq

/-- An interface object, mirroring Interface.__init__'s fields.  nsRef and
pair and ifb are world indices standing for the Python object references; the
live* fields model the pipeline state held by the external tc collaborator for
this device (installed by node construction, mutated by change commands),
which the spec calls the interface's pipeline. -/
structure IfObj where
  name : String
  id : Ident
  nsRef : Nat
  pair : Option Nat
  address : Option Address
  mirred_to_ifb : Bool
  ifb : Option Nat
  qdisc_list : List TCQdisc
  cls_list : List TCCls
  filter_list : List TCFltr
  liveQdiscs : List TCQdisc
  liveCls : List TCCls
  liveFltrs : List TCFltr
deriving DecidableEq

/-- Placeholder namespace object returned for an out-of-range reference. -/
def defNsObj : NsObj := { id := Ident.default, name := none, interfaces := [] }

/-- Placeholder interface object returned for an out-of-range reference. -/
def defIfObj : IfObj :=
  { name := "", id := Ident.default, nsRef := 0, pair := none, address := none,
    mirred_to_ifb := false, ifb := none, qdisc_list := [], cls_list := [],
    filter_list := [], liveQdiscs := [], liveCls := [], liveFltrs := [] }

/-- The whole mutable state: the id-generator counter, the namespace and
interface object stores, the trace of successfully executed engine commands,
and the set of command indices at which the external collaborator fails
(modelled from the spec, section 7: any external call may fail with
ExternalCommandFailed). -/
structure World where
  gen : Nat
  nss : List NsObj
  ifs : List IfObj
  trace : List EngineCmd
  failSet : List Nat
deriving DecidableEq

/-- Dereference a namespace object. -/
def getNs (w : World) (r : Nat) : NsObj := w.nss.getD r defNsObj

/-- Dereference an interface object. -/
def getIf (w : World) (i : Nat) : IfObj := w.ifs.getD i defIfObj

/-- Mutate one namespace object in place. -/
def updateNs (w : World) (r : Nat) (f : NsObj → NsObj) : World :=
  { w with nss := w.nss.set r (f (getNs w r)) }

/-- Mutate one interface object in place. -/
def updateIf (w : World) (i : Nat) (f : IfObj → IfObj) : World :=
  { w with ifs := w.ifs.set i (f (getIf w i)) }

/-- Issue one engine command.  Modelled from the spec (sections 6 and 7): the
engine module is not under src; a call either fails (when its sequence number
is in the failure set) leaving no record, or is appended to the trace. -/
def runCmd (c : EngineCmd) (w : World) : Except Err Unit × World :=
  if w.failSet.contains w.trace.length then (Except.error Err.externalCommandFailed, w)
  else (Except.ok (), { w with trace := w.trace ++ [c] })

/-- Sequence two steps, propagating a raised exception while keeping the world
mutated so far (Python semantics: object mutations survive the exception). -/
def andThen {α β : Type} (x : Except Err α × World) (f : α → World → Except Err β × World) :
    Except Err β × World :=
  match x with
  | (Except.error e, w) => (Except.error e, w)
  | (Except.ok a, w) => f a w

/-- Translation of Namespace.__init__ (topology.py lines 17-38): a non-empty
name allocates a fresh id, records the name and asks the engine to create the
isolated environment; an empty name yields the default namespace with the
sentinel id and no name attribute set. -/
def Namespace.init (ns_name : String) (w : World) : Except Err Nat × World :=
  if ns_name ≠ "" then
    let r := w.nss.length
    let w1 := { w with
      gen := w.gen + 1,
      nss := w.nss ++ [{ id := Ident.gen w.gen, name := some ns_name, interfaces := [] }] }
    andThen (runCmd (EngineCmd.createNs (Ident.gen w.gen)) w1) fun _ w2 =>
      (Except.ok r, w2)
  else
    (Except.ok w.nss.length,
      { w with nss := w.nss ++ [{ id := Ident.default, name := none, interfaces := [] }] })

/-- Translation of Namespace.is_default (lines 40-49). -/
def NsObj.is_default (o : NsObj) : Bool := o.id == Ident.default

/-- Translation of Namespace.get_id (lines 51-56). -/
def NsObj.get_id (o : NsObj) : Ident := o.id

/-- Translation of Namespace.get_name (lines 58-63): reading the name
attribute of a default namespace, where it was never set, raises
AttributeError. -/
def NsObj.get_name (o : NsObj) : Except Err String :=
  match o.name with
  | none => Except.error Err.attributeError
  | some s => Except.ok s

/-- Translation of Namespace.add_route (lines 65-85): delegates to the engine
(already-typed addresses taken, as the string branch only wraps them). -/
def Namespace.add_route (r : Nat) (dest next_hop : Address) (via : Nat) (w : World) :
    Except Err Unit × World :=
  runCmd (EngineCmd.routeAdd (getNs w r).id dest.addr next_hop.addr (getIf w via).id) w

/-- Translation of Interface.__init__ (lines 167-182): allocates a fresh id
from the generator and initializes every field; no engine call is made. -/
def Interface.init (interface_name : String) (ns : Nat) (w : World) : Nat × World :=
  let o : IfObj :=
    { name := interface_name, id := Ident.gen w.gen, nsRef := ns,
      pair := none, address := none, mirred_to_ifb := false, ifb := none,
      qdisc_list := [], cls_list := [], filter_list := [],
      liveQdiscs := [], liveCls := [], liveFltrs := [] }
  (w.ifs.length, { w with gen := w.gen + 1, ifs := w.ifs ++ [o] })

/-- Translation of Interface._set_pair (lines 185-193): unconditionally
overwrites the pair field; no check and no error path exists. -/
def Interface.set_pair (i p : Nat) (w : World) : World :=
  updateIf w i (fun o => { o with pair := some p })

/-- Translation of Namespace.add_interface (lines 87-97): appends to the
owned list, re-parents the interface, then registers it with the engine. -/
def Namespace.add_interface (r : Nat) (i : Nat) (w : World) : Except Err Unit × World :=
  let w1 := updateNs w r (fun o => { o with interfaces := o.interfaces ++ [i] })
  let w2 := updateIf w1 i (fun o => { o with nsRef := r })
  runCmd (EngineCmd.addIntToNs (getNs w2 r).id (getIf w2 i).id) w2

/-- Translation of Interface.set_address (lines 239-255): on a non-default
namespace the engine assigns the address and then the field is stored; on the
default namespace the call raises before touching anything. -/
def Interface.set_address (i : Nat) (address : Address) (w : World) : Except Err Unit × World :=
  if (getNs w (getIf w i).nsRef).is_default = false then
    andThen (runCmd (EngineCmd.assignIp (getNs w (getIf w i).nsRef).id (getIf w i).id
        address.addr) w) fun _ w1 =>
      (Except.ok (), updateIf w1 i (fun o => { o with address := some address }))
  else
    (Except.error Err.namespaceNotAssigned, w)

/-- Translation of Interface.set_mode (lines 257-272): the mode string is
validated first; a valid mode on the default namespace raises, otherwise the
engine is asked to flip the device. -/
def Interface.set_mode (i : Nat) (mode : String) (w : World) : Except Err Unit × World :=
  if mode = "UP" ∨ mode = "DOWN" then
    if (getNs w (getIf w i).nsRef).is_default = false then
      runCmd (EngineCmd.setIntfMode (getNs w (getIf w i).nsRef).id (getIf w i).id
        mode.toLower) w
    else
      (Except.error Err.namespaceNotAssigned, w)
  else
    (Except.error Err.invalidMode, w)

/-- Translation of Interface.add_qdisc (lines 274-293): constructing the
traffic_control.Qdisc object installs the node through the engine (modelled
from the spec, section 6) and appends it to the object list on success. -/
def Interface.add_qdisc (i : Nat) (qdisc parent handle : String)
    (params : List (String × String)) (w : World) : Except Err TCQdisc × World :=
  let node : TCQdisc := { qdisc := qdisc, parent := parent, handle := handle, params := params }
  andThen (runCmd (EngineCmd.installQdisc (getNs w (getIf w i).nsRef).id (getIf w i).id node) w)
    fun _ w1 =>
      (Except.ok node, updateIf w1 i (fun o =>
        { o with qdisc_list := o.qdisc_list ++ [node], liveQdiscs := o.liveQdiscs ++ [node] }))

/-- Translation of the source's add_class method (lines 295-311), renamed
add_cls here; same install-then-record shape as add_qdisc. -/
def Interface.add_cls (i : Nat) (qdisc parent classid : String)
    (params : List (String × String)) (w : World) : Except Err TCCls × World :=
  let node : TCCls := { qdisc := qdisc, parent := parent, classid := classid, params := params }
  andThen (runCmd (EngineCmd.installCls (getNs w (getIf w i).nsRef).id (getIf w i).id node) w)
    fun _ w1 =>
      (Except.ok node, updateIf w1 i (fun o =>
        { o with cls_list := o.cls_list ++ [node], liveCls := o.liveCls ++ [node] }))

/-- Translation of Interface.add_filter (lines 314-340). -/
def Interface.add_filter (i : Nat) (priority ftype flowid protocol parent handle : String)
    (params : List (String × String)) (w : World) : Except Err TCFltr × World :=
  let node : TCFltr :=
    { protocol := protocol, priority := priority, ftype := ftype,
      flowid := flowid, parent := parent, handle := handle, params := params }
  andThen (runCmd (EngineCmd.installFltr (getNs w (getIf w i).nsRef).id (getIf w i).id node) w)
    fun _ w1 =>
      (Except.ok node, updateIf w1 i (fun o =>
        { o with filter_list := o.filter_list ++ [node], liveFltrs := o.liveFltrs ++ [node] }))

/-- Translation of Interface._create_ifb (lines 342-345): builds the mirror
interface object, stores the reference, then asks the engine to set it up;
the reference assignment precedes the engine call. -/
def Interface.create_ifb (i : Nat) (w : World) : Except Err Unit × World :=
  let p := Interface.init ("ifb") (getIf w i).nsRef w
  let w1 := updateIf p.2 i (fun o => { o with ifb := some p.1 })
  runCmd (EngineCmd.setupIfb (getNs w1 (getIf w1 p.1).nsRef).id (getIf w1 p.1).id) w1

/-- Parameter set of the redirect filter installed by _mirred_to_ifb (lines
368-373), sending egress traffic to the mirror device. -/
def redirectParams (dev : Ident) : List (String × String) :=
  [("match", "u32 0 0"), ("action", "mirred"), ("egress", "redirect"), ("dev", dev.str)]

/-- The redirect filter node as a live pipeline record (the source installs
it through engine.add_filter directly, bypassing the Filter object list). -/
def redirectFltr (dev : Ident) : TCFltr :=
  { protocol := "ip", priority := "1", ftype := "u32", flowid := "",
    parent := "1:", handle := "", params := redirectParams dev }

/-- Translation of Interface._mirred_to_ifb (lines 347-376): sets the mirrored
flag first, then creates the mirror, installs the root htb qdisc at handle 1:
with default class 1, the default class 1:1 at rate 10mbit, the netem qdisc
11: under it, and finally the raw redirect filter (engine call only; the
Python filter_list is not appended). -/
def Interface.mirred_to_ifb (i : Nat) (w : World) : Except Err Unit × World :=
  let w0 := updateIf w i (fun o => { o with mirred_to_ifb := true })
  andThen (Interface.create_ifb i w0) fun _ w1 =>
  andThen (Interface.add_qdisc i ("htb") ("root") ("1:") [("default", "1")] w1) fun _ w2 =>
  andThen (Interface.add_cls i ("htb") ("1:") ("1:1") [("rate", "10mbit")] w2) fun _ w3 =>
  andThen (Interface.add_qdisc i ("netem") ("1:1") ("11:") [] w3) fun _ w4 =>
  let dev := (getIf w4 ((getIf w4 i).ifb.getD 0)).id
  andThen (runCmd (EngineCmd.addFltrRaw (getNs w4 (getIf w4 i).nsRef).id (getIf w4 i).id
      ("ip") ("1") ("u32") ("1:") (redirectParams dev)) w4) fun _ w5 =>
    (Except.ok (), updateIf w5 i (fun o => { o with liveFltrs := o.liveFltrs ++ [redirectFltr dev] }))

/-- Translation of Interface.set_min_bandwidth (lines 378-396): builds the
canonical shaping stage when not yet mirrored, then issues a tc class change
on class 1:1; the change mutates the live class's rate parameter in place
(mutation semantics modelled from the spec, section 6). -/
def Interface.set_min_bandwidth (i : Nat) (min_rate : String) (w : World) :
    Except Err Unit × World :=
  andThen (if (getIf w i).mirred_to_ifb = false then Interface.mirred_to_ifb i w
           else (Except.ok (), w)) fun _ w1 =>
  andThen (runCmd (EngineCmd.tcClsChange (getNs w1 (getIf w1 i).nsRef).id (getIf w1 i).id
      ("1:") ("1:1") min_rate) w1) fun _ w2 =>
    (Except.ok (), updateIf w2 i (fun o =>
      { o with liveCls := o.liveCls.map (fun c =>
          if c.classid = "1:1" then { c with params := setParam ("rate") min_rate c.params }
          else c) }))

/-- Translation of Interface.set_delay (lines 418-437): builds the canonical
shaping stage when not yet mirrored, then issues a tc qdisc change on the
netem qdisc 11:, mutating its delay parameter in place. -/
def Interface.set_delay (i : Nat) (delay : String) (w : World) : Except Err Unit × World :=
  andThen (if (getIf w i).mirred_to_ifb = false then Interface.mirred_to_ifb i w
           else (Except.ok (), w)) fun _ w1 =>
  andThen (runCmd (EngineCmd.tcQdiscChange (getNs w1 (getIf w1 i).nsRef).id (getIf w1 i).id
      ("1:1") ("11:") delay) w1) fun _ w2 =>
    (Except.ok (), updateIf w2 i (fun o =>
      { o with liveQdiscs := o.liveQdiscs.map (fun q =>
          if q.handle = "11:" then { q with params := setParam ("delay") delay q.params }
          else q) }))

/-- Translation of Interface.set_qdisc (lines 440-445): the guard compares the
bound method _mirred_to_ifb against the singleton False with Python is, which
never holds, so the mirror is never created here; the body then dereferences
self.ifb, raising AttributeError when no mirror exists. -/
def Interface.set_qdisc (i : Nat) (_qdisc : String) (w : World) : Except Err Unit × World :=
  andThen (if pyIs (PyVal.boundMethod ("_mirred_to_ifb")) (PyVal.pyBool false) = true
           then Interface.mirred_to_ifb i w
           else (Except.ok (), w)) fun _ w1 =>
  match (getIf w1 i).ifb with
  | none => (Except.error Err.attributeError, w1)
  | some r =>
      andThen (Interface.add_qdisc r ("codel") ("root") ("") [] w1) fun _ w2 =>
        (Except.ok (), w2)

/-- Translation of Veth.__init__ (lines 452-474): creates the two endpoint
interfaces, pairs them mutually, then asks the engine to create the link. -/
def Veth.init (ns1 ns2 : Nat) (interface1_name interface2_name : String) (w : World) :
    Except Err (Nat × Nat) × World :=
  let p1 := Interface.init interface1_name ns1 w
  let p2 := Interface.init interface2_name ns2 p1.2
  let w3 := Interface.set_pair p1.1 p2.1 p2.2
  let w4 := Interface.set_pair p2.1 p1.1 w3
  andThen (runCmd (EngineCmd.createVeth (getIf w4 p1.1).id (getIf w4 p2.1).id) w4) fun _ w5 =>
    (Except.ok (p1.1, p2.1), w5)

/-- Translation of the loop body of number_of_connections (lines 527-529):
counts the interfaces of the list whose pair's namespace is ns2; an interface
without a pair makes the source dereference None and raise. -/
def countConnections (w : World) (lst : List Nat) (ns2 : Nat) : Except Err Nat :=
  match lst with
  | [] => Except.ok 0
  | i :: rest =>
    match (getIf w i).pair with
    | none => Except.error Err.attributeError
    | some p =>
      match countConnections w rest ns2 with
      | Except.error e => Except.error e
      | Except.ok n => Except.ok ((if (getIf w p).nsRef = ns2 then 1 else 0) + n)

/-- Translation of number_of_connections (lines 512-531): swaps the pair so
the shorter interface list is scanned, then counts links to the other side. -/
def number_of_connections (ns1 ns2 : Nat) (w : World) : Except Err Nat :=
  let p := if (getNs w ns1).interfaces.length > (getNs w ns2).interfaces.length
           then (ns2, ns1) else (ns1, ns2)
  countConnections w (getNs w p.1).interfaces p.2

/-- The auto-generated name of a link endpoint (lines 498-499): the two
namespace identifiers and the link ordinal, dash-concatenated. -/
def autoName (w : World) (a b : Nat) (k : Nat) : String :=
  (getNs w a).id.str ++ "-" ++ (getNs w b).id.str ++ "-" ++ Nat.repr k

/-- Tail of connect (lines 501-510): creates the veth pair with the resolved
names, registers each endpoint with its namespace and brings both UP. -/
def connectTail (ns1 ns2 : Nat) (name1 name2 : String) (w : World) :
    Except Err (Nat × Nat) × World :=
  andThen (Veth.init ns1 ns2 name1 name2 w) fun p wa =>
  andThen (Namespace.add_interface ns1 p.1 wa) fun _ wb =>
  andThen (Namespace.add_interface ns2 p.2 wb) fun _ wc =>
  andThen (Interface.set_mode p.1 ("UP") wc) fun _ wd =>
  andThen (Interface.set_mode p.2 ("UP") wd) fun _ we =>
    (Except.ok p, we)

/-- Translation of connect (lines 484-510): when both names are omitted the
next ordinal is the current number of connections between the two namespaces
and both endpoint names are derived from it; then the veth pair is created,
each endpoint is registered with its namespace and brought UP. -/
def connect (ns1 ns2 : Nat) (interface1_name interface2_name : String) (w : World) :
    Except Err (Nat × Nat) × World :=
  let namesE : Except Err (String × String) :=
    if interface1_name = "" ∧ interface2_name = "" then
      match number_of_connections ns1 ns2 w with
      | Except.error e => Except.error e
      | Except.ok k => Except.ok (autoName w ns1 ns2 k, autoName w ns2 ns1 k)
    else Except.ok (interface1_name, interface2_name)
  match namesE with
  | Except.error e => (Except.error e, w)
  | Except.ok names => connectTail ns1 ns2 names.1 names.2 w

/-- The public operations of the topology core, for stating invariants that
are preserved by every operation. -/
inductive CoreOp where
  | nsInit : String → CoreOp
  | routeAdd : Nat → Address → Address → Nat → CoreOp
  | addIntf : Nat → Nat → CoreOp
  | conn : Nat → Nat → String → String → CoreOp
  | setAddress : Nat → Address → CoreOp
  | setMode : Nat → String → CoreOp
  | addQdisc : Nat → String → String → String → List (String × String) → CoreOp
  | addCls : Nat → String → String → String → List (String × String) → CoreOp
  | addFltr : Nat → String → String → String → String → String → String →
      List (String × String) → CoreOp
  | setMinBandwidth : Nat → String → CoreOp
  | setDelay : Nat → String → CoreOp
  | setQdisc : Nat → String → CoreOp
deriving DecidableEq

/-- Run one public operation, discarding its return value. -/
def CoreOp.run : CoreOp → World → Except Err Unit × World
  | CoreOp.nsInit s, w => andThen (Namespace.init s w) fun _ v => (Except.ok (), v)
  | CoreOp.routeAdd r d n i, w => Namespace.add_route r d n i w
  | CoreOp.addIntf r i, w => Namespace.add_interface r i w
  | CoreOp.conn a b s t, w => andThen (connect a b s t w) fun _ v => (Except.ok (), v)
  | CoreOp.setAddress i a, w => Interface.set_address i a w
  | CoreOp.setMode i m, w => Interface.set_mode i m w
  | CoreOp.addQdisc i q p h ps, w => andThen (Interface.add_qdisc i q p h ps w) fun _ v => (Except.ok (), v)
  | CoreOp.addCls i q p c ps, w => andThen (Interface.add_cls i q p c ps w) fun _ v => (Except.ok (), v)
  | CoreOp.addFltr i pr ft fl proto par hd ps, w =>
      andThen (Interface.add_filter i pr ft fl proto par hd ps w) fun _ v => (Except.ok (), v)
  | CoreOp.setMinBandwidth i r, w => Interface.set_min_bandwidth i r w
  | CoreOp.setDelay i d, w => Interface.set_delay i d w
  | CoreOp.setQdisc i q, w => Interface.set_qdisc i q w

/-- Recognizer for the engine command that sets up an IFB mirror device. -/
def isSetupIfb : EngineCmd → Bool
  | EngineCmd.setupIfb _ _ => true
  | _ => false

/-- Number of IFB mirror setups recorded in a command trace. -/
def countIfb (t : List EngineCmd) : Nat := (t.filter isSetupIfb).length

/-- The structural shape of an interface's live pipeline: qdisc nodes as
(kind, parent, handle) triples, class nodes as (kind, parent, classid)
triples, the number of filters, and the mirror reference; parameters are
deliberately dropped so that pipelines built in different call orders can be
compared stage for stage. -/
def skeleton (o : IfObj) :
    List (String × String × String) × List (String × String × String) × Nat × Option Nat :=
  (o.liveQdiscs.map (fun q => (q.qdisc, q.parent, q.handle)),
   o.liveCls.map (fun c => (c.qdisc, c.parent, c.classid)),
   o.liveFltrs.length, o.ifb)

/-- The pair field of every interface object, in store order. -/
def ifsPairs (w : World) : List (Option Nat) := w.ifs.map (fun o => o.pair)

/-- Symmetry of the pairing relation on a pair list: every pair reference is
in range and points back. -/
def pairOkL (ps : List (Option Nat)) : Prop :=
  ∀ i j : Nat, ps.getD i none = some j → j < ps.length ∧ ps.getD j none = some i

/-- Symmetry of the pairing relation on a world. -/
def pairOkW (w : World) : Prop := pairOkL (ifsPairs w)

/-- Boolean check of pairing symmetry on a concrete pair list, used to
instantiate the symmetry invariant on concrete worlds. -/
def pairOkB (ps : List (Option Nat)) : Bool :=
  (List.range ps.length).all (fun i =>
    match ps.getD i none with
    | none => true
    | some j => decide (j < ps.length) && decide (ps.getD j none = some i))

/-- Flag state used for the mirrored-once argument: the interface reference is
valid and its mirrored flag is set. -/
def MirredT (i : Nat) (w : World) : Prop :=
  i < w.ifs.length ∧ (getIf w i).mirred_to_ifb = true

/-- Demo namespace n0, as left by a run of the constructor. -/
def demoNs0 : NsObj := { id := Ident.gen 0, name := some "n0", interfaces := [0] }

/-- Demo namespace r0. -/
def demoNs1 : NsObj := { id := Ident.gen 1, name := some "r0", interfaces := [1] }

/-- Demo default (host) namespace, owning a host-side interface. -/
def demoNs2 : NsObj := { id := Ident.default, name := none, interfaces := [2] }

/-- Demo interface in n0, paired with the one in r0. -/
def demoIf0 : IfObj := { defIfObj with name := "0-1-0", id := Ident.gen 2, nsRef := 0, pair := some 1 }

/-- Demo interface in r0, paired with the one in n0. -/
def demoIf1 : IfObj := { defIfObj with name := "1-0-0", id := Ident.gen 3, nsRef := 1, pair := some 0 }

/-- Demo interface owned by the default namespace, unpaired. -/
def demoIf2 : IfObj := { defIfObj with name := "eth0", id := Ident.gen 4, nsRef := 2 }

/-- A small concrete world used to instantiate the universally quantified
theorems: two isolated namespaces joined by one link, plus a host interface. -/
def demoW : World :=
  { gen := 5, nss := [demoNs0, demoNs1, demoNs2], ifs := [demoIf0, demoIf1, demoIf2],
    trace := [], failSet := [] }

/-- A demo address literal. -/
def demoAddr : Address := { addr := "10.0.0.1/24" }

/-- Concrete world for exercising the failure of the first external step of
the Unshaped to Mirrored transition: one namespace, one unshaped interface,
and an engine that fails the first command issued. -/
def c3W : World :=
  { gen := 2, nss := [demoNs0], ifs := [{ defIfObj with name := "e0", id := Ident.gen 1, nsRef := 0 }],
    trace := [], failSet := [0] }

/-- The empty initial world of the link-ordinal scenario. -/
def scW0 : World := { gen := 0, nss := [], ifs := [], trace := [], failSet := [] }

/-- Scenario step: create Namespace n0. -/
def scR1 : Except Err Nat × World := Namespace.init ("n0") scW0

/-- Scenario step: create Namespace r0. -/
def scR2 : Except Err Nat × World := Namespace.init ("r0") scR1.2

/-- Scenario step: first no-name connect between n0 and r0. -/
def scC1 : Except Err (Nat × Nat) × World := connect 0 1 ("") ("") scR2.2

/-- Scenario step: second no-name connect between n0 and r0. -/
def scC2 : Except Err (Nat × Nat) × World := connect 0 1 ("") ("") scC1.2

/-! List store lemmas used to reason about object dereference and update. -/

theorem listGetD_set_self {α : Type} {l : List α} {i : Nat} (h : i < l.length) (a d : α) :
    (l.set i a).getD i d = a := by
  induction l generalizing i with
  | nil => simp at h
  | cons x xs ih =>
    cases i with
    | zero => rfl
    | succ n => exact ih (by simpa using h) 

theorem listGetD_set_ne {α : Type} {l : List α} {i j : Nat} (h : i ≠ j) (a : α) (d : α) :
    (l.set i a).getD j d = l.getD j d := by
  induction l generalizing i j with
  | nil => rfl
  | cons x xs ih =>
    cases i with
    | zero =>
      cases j with
      | zero => exact absurd rfl h
      | succ m => rfl
    | succ n =>
      cases j with
      | zero => rfl
      | succ m => exact ih (fun hc => h (by rw [hc])) 

theorem listGetD_append_lt {α : Type} {l l' : List α} {i : Nat} (h : i < l.length) (d : α) :
    (l ++ l').getD i d = l.getD i d := by
  induction l generalizing i with
  | nil => simp at h
  | cons x xs ih =>
    cases i with
    | zero => rfl
    | succ n => exact ih (by simpa using h) 

theorem listGetD_append_len {α : Type} (l l' : List α) (x : α) (d : α) :
    ((l ++ x :: l').getD l.length d) = x := by
  induction l with
  | nil => rfl
  | cons y ys ih => exact ih

theorem listSet_append_lt {α : Type} {l : List α} {i : Nat} (h : i < l.length) (l' : List α)
    (a : α) : (l ++ l').set i a = l.set i a ++ l' := by
  induction l generalizing i with
  | nil => simp at h
  | cons x xs ih =>
    cases i with
    | zero => rfl
    | succ n => simpa using ih (by simpa using h)

theorem listSet_getD_self {α : Type} {l : List α} {i : Nat} (h : i < l.length) (d : α) :
    l.set i (l.getD i d) = l := by
  induction l generalizing i with
  | nil => rfl
  | cons x xs ih =>
    cases i with
    | zero => rfl
    | succ n => simpa using ih (by simpa using h)

theorem listMap_set {α β : Type} (f : α → β) (l : List α) (i : Nat) (a : α) :
    (l.set i a).map f = (l.map f).set i (f a) := by
  induction l generalizing i with
  | nil => rfl
  | cons x xs ih =>
    cases i with
    | zero => rfl
    | succ n => simp [ih n]

theorem listGetD_map {α β : Type} (f : α → β) (l : List α) (i : Nat) (d : α) :
    (l.map f).getD i (f d) = f (l.getD i d) := by
  induction l generalizing i with
  | nil => rfl
  | cons x xs ih =>
    cases i with
    | zero => rfl
    | succ n => exact ih n

/-! Projection lemmas for the world update primitives. -/

@[simp] theorem updateIf_gen (w : World) (i : Nat) (f : IfObj → IfObj) :
    (updateIf w i f).gen = w.gen := rfl

@[simp] theorem updateIf_nss (w : World) (i : Nat) (f : IfObj → IfObj) :
    (updateIf w i f).nss = w.nss := rfl

@[simp] theorem updateIf_trace (w : World) (i : Nat) (f : IfObj → IfObj) :
    (updateIf w i f).trace = w.trace := rfl

@[simp] theorem updateIf_failSet (w : World) (i : Nat) (f : IfObj → IfObj) :
    (updateIf w i f).failSet = w.failSet := rfl

@[simp] theorem updateIf_ifs_length (w : World) (i : Nat) (f : IfObj → IfObj) :
    (updateIf w i f).ifs.length = w.ifs.length := by
  simp [updateIf]

@[simp] theorem updateNs_gen (w : World) (r : Nat) (f : NsObj → NsObj) :
    (updateNs w r f).gen = w.gen := rfl

@[simp] theorem updateNs_ifs (w : World) (r : Nat) (f : NsObj → NsObj) :
    (updateNs w r f).ifs = w.ifs := rfl

@[simp] theorem updateNs_trace (w : World) (r : Nat) (f : NsObj → NsObj) :
    (updateNs w r f).trace = w.trace := rfl

@[simp] theorem updateNs_failSet (w : World) (r : Nat) (f : NsObj → NsObj) :
    (updateNs w r f).failSet = w.failSet := rfl

@[simp] theorem updateNs_nss_length (w : World) (r : Nat) (f : NsObj → NsObj) :
    (updateNs w r f).nss.length = w.nss.length := by
  simp [updateNs]

@[simp] theorem getNs_updateIf (w : World) (i : Nat) (f : IfObj → IfObj) (r : Nat) :
    getNs (updateIf w i f) r = getNs w r := rfl

@[simp] theorem getIf_updateNs (w : World) (r : Nat) (f : NsObj → NsObj) (i : Nat) :
    getIf (updateNs w r f) i = getIf w i := rfl

theorem getIf_updateIf_self {w : World} {i : Nat} (h : i < w.ifs.length) (f : IfObj → IfObj) :
    getIf (updateIf w i f) i = f (getIf w i) :=
  listGetD_set_self h _ _

theorem getIf_updateIf_ne {w : World} {i j : Nat} (h : i ≠ j) (f : IfObj → IfObj) :
    getIf (updateIf w i f) j = getIf w j :=
  listGetD_set_ne h _ _

theorem getNs_updateNs_self {w : World} {r : Nat} (h : r < w.nss.length) (f : NsObj → NsObj) :
    getNs (updateNs w r f) r = f (getNs w r) :=
  listGetD_set_self h _ _

theorem getNs_updateNs_ne {w : World} {r s : Nat} (h : r ≠ s) (f : NsObj → NsObj) :
    getNs (updateNs w r f) s = getNs w s :=
  listGetD_set_ne h _ _

@[simp] theorem runCmd_ifs (c : EngineCmd) (w : World) : ((runCmd c w).2).ifs = w.ifs := by
  unfold runCmd; split <;> rfl

@[simp] theorem runCmd_nss (c : EngineCmd) (w : World) : ((runCmd c w).2).nss = w.nss := by
  unfold runCmd; split <;> rfl

@[simp] theorem runCmd_gen (c : EngineCmd) (w : World) : ((runCmd c w).2).gen = w.gen := by
  unfold runCmd; split <;> rfl

@[simp] theorem runCmd_failSet (c : EngineCmd) (w : World) :
    ((runCmd c w).2).failSet = w.failSet := by
  unfold runCmd; split <;> rfl

theorem runCmd_nil {w : World} (h : w.failSet = []) (c : EngineCmd) :
    runCmd c w = (Except.ok (), { w with trace := w.trace ++ [c] }) := by
  simp [runCmd, h]

@[simp] theorem andThen_ok {α β : Type} (a : α) (w : World)
    (f : α → World → Except Err β × World) : andThen (Except.ok a, w) f = f a w := rfl

@[simp] theorem andThen_error {α β : Type} (e : Err) (w : World)
    (f : α → World → Except Err β × World) :
    andThen (Except.error e, w) f = (Except.error e, w) := rfl

theorem listGetD_of_len_le {α : Type} {l : List α} {i : Nat} (h : l.length ≤ i) (d : α) :
    l.getD i d = d := by
  induction l generalizing i with
  | nil => rfl
  | cons x xs ih =>
    cases i with
    | zero => simp at h
    | succ n => exact ih (by simpa using h) 

theorem listSet_of_len_le {α : Type} {l : List α} {i : Nat} (h : l.length ≤ i) (a : α) :
    l.set i a = l := by
  induction l generalizing i with
  | nil => rfl
  | cons x xs ih =>
    cases i with
    | zero => simp at h
    | succ n => simp [ih (by simpa using h)]

theorem listSet_append_len {α : Type} (l l' : List α) (x a : α) :
    (l ++ x :: l').set l.length a = l ++ a :: l' := by
  induction l with
  | nil => rfl
  | cons y ys ih => simp [ih]

/-! Theorems for the frozen claims. -/

/-- C8: for every mode value other than UP and DOWN, set_mode fails with
InvalidMode regardless of which namespace owns the interface, and performs no
state change (the returned world is the input world). -/
theorem claim_C8 (w : World) (i : Nat) (mode : String) (h1 : mode ≠ "UP") (h2 : mode ≠ "DOWN") :
    Interface.set_mode i mode w = (Except.error Err.invalidMode, w) := by
  simp [Interface.set_mode, h1, h2]

theorem claim_C8_witness :
    (("up" : String) ≠ "UP" ∧ ("up" : String) ≠ "DOWN") ∧
    Interface.set_mode 0 ("up") demoW = (Except.error Err.invalidMode, demoW) :=
  ⟨⟨by decide, by decide⟩, claim_C8 demoW 0 ("up") (by decide) (by decide)⟩

/-- C9: on an interface with no prior shaping call (so no mirror reference is
set), set_qdisc always fails with an attribute error and changes nothing: its
guard compares the bound method _mirred_to_ifb with the singleton False,
which never holds, so the mirror is never created and self.ifb is None. -/
theorem claim_C9 :
    (∀ (w : World) (i : Nat) (q : String), (getIf w i).ifb = none →
      Interface.set_qdisc i q w = (Except.error Err.attributeError, w))
    ∧ pyIs (PyVal.boundMethod ("_mirred_to_ifb")) (PyVal.pyBool false) = false := by
  refine ⟨fun w i q h => ?_, by decide⟩
  simp [Interface.set_qdisc, pyIs, h]

theorem claim_C9_witness :
    (getIf demoW 0).ifb = none ∧
    Interface.set_qdisc 0 ("fq_codel") demoW = (Except.error Err.attributeError, demoW) :=
  ⟨by decide, claim_C9.1 demoW 0 ("fq_codel") (by decide)⟩

/-- C4 (code behaviour at the failing input): in demoW, interface 0 is already
paired with interface 1, yet pairing it again with interface 2 silently
overwrites the pair field and raises nothing (the operation is total), leaving
interface 1 still pointing back at 0; no AlreadyPaired failure exists in the
source. -/
theorem claim_C4_cbg :
    (getIf demoW 0).pair = some 1 ∧
    (getIf (Interface.set_pair 0 2 demoW) 0).pair = some 2 ∧
    (getIf (Interface.set_pair 0 2 demoW) 1).pair = some 0 := by decide

/-- C3 (counterexample): on c3W the engine fails the very first external step
of the Unshaped to Mirrored transition (the IFB mirror setup), the failure is
surfaced as ExternalCommandFailed, yet the interface's recorded state is not
left Unshaped: the mirrored flag is already set (and no pipeline node was
installed), refuting the claim that the flag remains unset on failure. -/
theorem claim_C3_cex :
    (getIf c3W 0).mirred_to_ifb = false ∧
    (Interface.set_min_bandwidth 0 ("5mbit") c3W).1 = Except.error Err.externalCommandFailed ∧
    (getIf (Interface.set_min_bandwidth 0 ("5mbit") c3W).2 0).mirred_to_ifb = true ∧
    (getIf (Interface.set_min_bandwidth 0 ("5mbit") c3W).2 0).liveQdiscs = [] := by decide

/-- C7: set_address and set_mode with any valid mode (UP or DOWN) on an
interface owned by the default namespace fail with NamespaceNotAssigned and
leave the world unchanged (in particular the stored address); on a
non-default namespace, with the engine succeeding, the same calls succeed for
either valid mode and set_address stores the given address. -/
theorem claim_C7 :
    (∀ (w : World) (i : Nat) (a : Address) (mode : String),
      mode = "UP" ∨ mode = "DOWN" →
      (getNs w (getIf w i).nsRef).is_default = true →
      Interface.set_address i a w = (Except.error Err.namespaceNotAssigned, w) ∧
      Interface.set_mode i mode w = (Except.error Err.namespaceNotAssigned, w))
    ∧ (∀ (w : World) (i : Nat) (a : Address) (mode : String),
      mode = "UP" ∨ mode = "DOWN" →
      i < w.ifs.length → w.failSet = [] →
      (getNs w (getIf w i).nsRef).is_default = false →
      (Interface.set_address i a w).1 = Except.ok () ∧
      (getIf (Interface.set_address i a w).2 i).address = some a ∧
      (Interface.set_mode i mode w).1 = Except.ok ()) := by
  constructor
  · intro w i a mode hvm h
    constructor
    · simp [Interface.set_address, h]
    · rcases hvm with hm | hm <;> subst hm <;> simp [Interface.set_mode, h]
  · intro w i a mode hvm hi hf h
    refine ⟨?_, ?_, ?_⟩
    · simp [Interface.set_address, h, runCmd_nil hf]
    · have hsa : Interface.set_address i a w =
          (Except.ok (), updateIf
            { w with trace := w.trace ++
              [EngineCmd.assignIp (getNs w (getIf w i).nsRef).id (getIf w i).id a.addr] }
            i (fun o => { o with address := some a })) := by
        simp [Interface.set_address, h, runCmd_nil hf]
      rw [hsa, getIf_updateIf_self (by simpa using hi)]
    · rcases hvm with hm | hm <;> subst hm <;>
        simp [Interface.set_mode, h, runCmd_nil hf]

theorem claim_C7_witness :
    (("DOWN" : String) = "UP" ∨ ("DOWN" : String) = "DOWN") ∧
    ((getNs demoW (getIf demoW 2).nsRef).is_default = true ∧
      Interface.set_address 2 demoAddr demoW = (Except.error Err.namespaceNotAssigned, demoW) ∧
      Interface.set_mode 2 ("DOWN") demoW = (Except.error Err.namespaceNotAssigned, demoW)) ∧
    ((getNs demoW (getIf demoW 0).nsRef).is_default = false ∧
      (getIf (Interface.set_address 0 demoAddr demoW).2 0).address = some demoAddr ∧
      (Interface.set_mode 0 ("DOWN") demoW).1 = Except.ok ()) :=
  ⟨Or.inr rfl,
   ⟨by decide, (claim_C7.1 demoW 2 demoAddr ("DOWN") (Or.inr rfl) (by decide)).1,
    (claim_C7.1 demoW 2 demoAddr ("DOWN") (Or.inr rfl) (by decide)).2⟩,
   ⟨by decide,
    (claim_C7.2 demoW 0 demoAddr ("DOWN") (Or.inr rfl) (by decide) (by decide) (by decide)).2.1,
    (claim_C7.2 demoW 0 demoAddr ("DOWN") (Or.inr rfl) (by decide) (by decide) (by decide)).2.2⟩⟩

/-- C10: constructing a Namespace with an empty name sets no name field, so
get_name raises an attribute error while get_id returns the default sentinel;
a non-empty name yields a namespace whose get_name is that name and whose
get_id is the freshly allocated generator value, distinct from every
identifier allocated before (those lie below the old counter). -/
theorem claim_C10 :
    (∀ w : World,
      (Namespace.init ("") w).1 = Except.ok w.nss.length ∧
      NsObj.get_name (getNs (Namespace.init ("") w).2 w.nss.length) = Except.error Err.attributeError ∧
      NsObj.get_id (getNs (Namespace.init ("") w).2 w.nss.length) = Ident.default)
    ∧ (∀ (w : World) (s : String), s ≠ "" → w.failSet = [] →
      (Namespace.init s w).1 = Except.ok w.nss.length ∧
      NsObj.get_name (getNs (Namespace.init s w).2 w.nss.length) = Except.ok s ∧
      NsObj.get_id (getNs (Namespace.init s w).2 w.nss.length) = Ident.gen w.gen ∧
      (Namespace.init s w).2.gen = w.gen + 1 ∧
      (∀ r : Nat, (∀ m : Nat, (getNs w r).id = Ident.gen m → m < w.gen) →
        (getNs w r).id ≠ NsObj.get_id (getNs (Namespace.init s w).2 w.nss.length))) := by
  constructor
  · intro w
    refine ⟨by simp [Namespace.init], ?_, ?_⟩ <;>
      simp [Namespace.init, getNs, listGetD_append_len, NsObj.get_name, NsObj.get_id]
  · intro w s hs hf
    have hinit : Namespace.init s w =
        (Except.ok w.nss.length,
          { w with
            gen := w.gen + 1,
            nss := w.nss ++ [{ id := Ident.gen w.gen, name := some s, interfaces := [] }],
            trace := w.trace ++ [EngineCmd.createNs (Ident.gen w.gen)] }) := by
      simp [Namespace.init, hs, runCmd_nil, hf]
    rw [hinit]
    refine ⟨rfl, ?_, ?_, rfl, ?_⟩
    · simp [getNs, listGetD_append_len, NsObj.get_name]
    · simp [getNs, listGetD_append_len, NsObj.get_id]
    · intro r hb
      simp only [getNs, listGetD_append_len, NsObj.get_id]
      intro hc
      exact absurd (hb w.gen (by simpa [getNs] using hc)) (by omega)

theorem claim_C10_witness :
    (("n9" : String) ≠ "" ∧ demoW.failSet = []) ∧
    NsObj.get_name (getNs (Namespace.init ("n9") demoW).2 demoW.nss.length) = Except.ok ("n9") ∧
    NsObj.get_id (getNs (Namespace.init ("n9") demoW).2 demoW.nss.length) = Ident.gen demoW.gen :=
  ⟨⟨by decide, by decide⟩,
   (claim_C10.2 demoW ("n9") (by decide) (by decide)).2.1,
   (claim_C10.2 demoW ("n9") (by decide) (by decide)).2.2.1⟩

/-! Machinery for flag preservation along an operation chain. -/

theorem andThen_keep {α β : Type} {P : World → Prop} {x : Except Err α × World}
    {f : α → World → Except Err β × World}
    (hx : P x.2) (hf : ∀ a v, P v → P (f a v).2) : P (andThen x f).2 := by
  obtain ⟨r, v⟩ := x
  cases r with
  | error e => exact hx
  | ok a => exact hf a v hx

theorem MirredT_of_ifs_eq {i : Nat} {w v : World} (h : v.ifs = w.ifs) (hm : MirredT i w) :
    MirredT i v := by
  obtain ⟨h1, h2⟩ := hm
  refine ⟨by rw [h]; exact h1, ?_⟩
  unfold getIf at h2 ⊢
  rw [h]
  exact h2

theorem MirredT_runCmd {i : Nat} {c : EngineCmd} {w : World} (hm : MirredT i w) :
    MirredT i (runCmd c w).2 :=
  MirredT_of_ifs_eq (runCmd_ifs c w) hm

theorem MirredT_updateIf {i j : Nat} {w : World} {f : IfObj → IfObj}
    (hf : ∀ o : IfObj, (f o).mirred_to_ifb = o.mirred_to_ifb) (hm : MirredT i w) :
    MirredT i (updateIf w j f) := by
  obtain ⟨h1, h2⟩ := hm
  refine ⟨by simpa using h1, ?_⟩
  by_cases hij : j = i
  · subst hij
    rw [getIf_updateIf_self h1, hf]
    exact h2
  · rw [getIf_updateIf_ne hij]
    exact h2

theorem getIf_init_lt {w : World} {i : Nat} (h : i < w.ifs.length) (s : String) (ns : Nat) :
    getIf (Interface.init s ns w).2 i = getIf w i :=
  listGetD_append_lt h _

theorem MirredT_init {i : Nat} {w : World} {s : String} {ns : Nat} (hm : MirredT i w) :
    MirredT i (Interface.init s ns w).2 := by
  obtain ⟨h1, h2⟩ := hm
  refine ⟨?_, ?_⟩
  · show i < (w.ifs ++ [_]).length
    simp
    omega
  · rw [getIf_init_lt h1]
    exact h2

theorem MirredT_create_ifb {i j : Nat} {w : World} (hm : MirredT i w) :
    MirredT i (Interface.create_ifb j w).2 :=
  MirredT_runCmd (MirredT_updateIf (fun _ => rfl) (MirredT_init hm))

theorem MirredT_add_qdisc {i j : Nat} {q p h : String} {ps : List (String × String)} {w : World}
    (hm : MirredT i w) : MirredT i (Interface.add_qdisc j q p h ps w).2 := by
  unfold Interface.add_qdisc
  exact andThen_keep (MirredT_runCmd hm) (fun _ _ hv => MirredT_updateIf (fun _ => rfl) hv)

theorem MirredT_add_cls {i j : Nat} {q p c : String} {ps : List (String × String)} {w : World}
    (hm : MirredT i w) : MirredT i (Interface.add_cls j q p c ps w).2 := by
  unfold Interface.add_cls
  exact andThen_keep (MirredT_runCmd hm) (fun _ _ hv => MirredT_updateIf (fun _ => rfl) hv)

theorem MirredT_after_mirred {i : Nat} {w : World} (hi : i < w.ifs.length) :
    MirredT i (Interface.mirred_to_ifb i w).2 := by
  unfold Interface.mirred_to_ifb
  have h0 : MirredT i (updateIf w i (fun o => { o with mirred_to_ifb := true })) :=
    ⟨by simpa using hi, by rw [getIf_updateIf_self hi]⟩
  exact andThen_keep (MirredT_create_ifb h0) (fun _ _ hv =>
    andThen_keep (MirredT_add_qdisc hv) (fun _ _ hv2 =>
    andThen_keep (MirredT_add_cls hv2) (fun _ _ hv3 =>
    andThen_keep (MirredT_add_qdisc hv3) (fun _ _ hv4 =>
    andThen_keep (MirredT_runCmd hv4) (fun _ _ hv5 => MirredT_updateIf (fun _ => rfl) hv5)))))

theorem ecf_runCmd {c : EngineCmd} {w : World} :
    ∀ e, (runCmd c w).1 = Except.error e → e = Err.externalCommandFailed := by
  unfold runCmd
  split
  · intro e he
    exact (Except.error.inj he).symm
  · intro e he
    exact Except.noConfusion he

theorem ecf_andThen {α β : Type} {x : Except Err α × World}
    {f : α → World → Except Err β × World}
    (hx : ∀ e, x.1 = Except.error e → e = Err.externalCommandFailed)
    (hf : ∀ a v e, (f a v).1 = Except.error e → e = Err.externalCommandFailed) :
    ∀ e, (andThen x f).1 = Except.error e → e = Err.externalCommandFailed := by
  obtain ⟨r, v⟩ := x
  cases r with
  | error e2 => intro e he; exact hx e (by simpa [andThen] using he)
  | ok a => intro e he; exact hf a v e he

theorem ecf_add_qdisc {j : Nat} {q p h : String} {ps : List (String × String)} {w : World} :
    ∀ e, (Interface.add_qdisc j q p h ps w).1 = Except.error e →
      e = Err.externalCommandFailed := by
  unfold Interface.add_qdisc
  exact ecf_andThen ecf_runCmd (fun _ _ e he => Except.noConfusion he)

theorem ecf_add_cls {j : Nat} {q p c : String} {ps : List (String × String)} {w : World} :
    ∀ e, (Interface.add_cls j q p c ps w).1 = Except.error e →
      e = Err.externalCommandFailed := by
  unfold Interface.add_cls
  exact ecf_andThen ecf_runCmd (fun _ _ e he => Except.noConfusion he)

theorem ecf_mirred {j : Nat} {w : World} :
    ∀ e, (Interface.mirred_to_ifb j w).1 = Except.error e → e = Err.externalCommandFailed := by
  unfold Interface.mirred_to_ifb Interface.create_ifb
  exact ecf_andThen ecf_runCmd (fun _ _ => ecf_andThen ecf_add_qdisc (fun _ _ =>
    ecf_andThen ecf_add_cls (fun _ _ => ecf_andThen ecf_add_qdisc (fun _ _ =>
    ecf_andThen ecf_runCmd (fun _ _ e he => Except.noConfusion he)))))

/-- C3 (amended): when any external step of the Unshaped to Mirrored
transition fails, the failure is surfaced as ExternalCommandFailed (the only
error either shaping entry point can raise), but the interface's recorded
state is not left Unshaped: the mirrored flag is set to True before the first
external step and remains set whatever happens, so a later shaping call skips
the transition instead of re-attempting it. -/
theorem claim_C3 :
    (∀ (w : World) (i : Nat) (r : String), i < w.ifs.length →
      (getIf (Interface.set_min_bandwidth i r w).2 i).mirred_to_ifb = true ∧
      (∀ e, (Interface.set_min_bandwidth i r w).1 = Except.error e →
        e = Err.externalCommandFailed))
    ∧ (∀ (w : World) (i : Nat) (d : String), i < w.ifs.length →
      (getIf (Interface.set_delay i d w).2 i).mirred_to_ifb = true ∧
      (∀ e, (Interface.set_delay i d w).1 = Except.error e →
        e = Err.externalCommandFailed)) := by
  constructor
  · intro w i r hi
    constructor
    · have hM : MirredT i (Interface.set_min_bandwidth i r w).2 := by
        unfold Interface.set_min_bandwidth
        refine andThen_keep ?_ ?_
        · by_cases hb : (getIf w i).mirred_to_ifb = false
          · rw [if_pos hb]
            exact MirredT_after_mirred hi
          · rw [if_neg hb]
            exact ⟨hi, by revert hb; cases (getIf w i).mirred_to_ifb <;> simp⟩
        · intro _ v hv
          exact andThen_keep (MirredT_runCmd hv) (fun _ _ hv2 =>
            MirredT_updateIf (fun _ => rfl) hv2)
      exact hM.2
    · unfold Interface.set_min_bandwidth
      refine ecf_andThen ?_ (fun _ _ => ecf_andThen ecf_runCmd
        (fun _ _ e he => Except.noConfusion he))
      by_cases hb : (getIf w i).mirred_to_ifb = false
      · rw [if_pos hb]
        exact ecf_mirred
      · rw [if_neg hb]
        exact fun e he => Except.noConfusion he
  · intro w i d hi
    constructor
    · have hM : MirredT i (Interface.set_delay i d w).2 := by
        unfold Interface.set_delay
        refine andThen_keep ?_ ?_
        · by_cases hb : (getIf w i).mirred_to_ifb = false
          · rw [if_pos hb]
            exact MirredT_after_mirred hi
          · rw [if_neg hb]
            exact ⟨hi, by revert hb; cases (getIf w i).mirred_to_ifb <;> simp⟩
        · intro _ v hv
          exact andThen_keep (MirredT_runCmd hv) (fun _ _ hv2 =>
            MirredT_updateIf (fun _ => rfl) hv2)
      exact hM.2
    · unfold Interface.set_delay
      refine ecf_andThen ?_ (fun _ _ => ecf_andThen ecf_runCmd
        (fun _ _ e he => Except.noConfusion he))
      by_cases hb : (getIf w i).mirred_to_ifb = false
      · rw [if_pos hb]
        exact ecf_mirred
      · rw [if_neg hb]
        exact fun e he => Except.noConfusion he

theorem claim_C3_witness :
    (0 < c3W.ifs.length) ∧
    (getIf (Interface.set_min_bandwidth 0 ("5mbit") c3W).2 0).mirred_to_ifb = true :=
  ⟨by decide, (claim_C3.1 c3W 0 ("5mbit") (by decide)).1⟩

/-! Characterization of a fully successful Unshaped to Mirrored transition. -/

@[simp] theorem init_fst (s : String) (ns : Nat) (w : World) :
    (Interface.init s ns w).1 = w.ifs.length := rfl

@[simp] theorem init_failSet (s : String) (ns : Nat) (w : World) :
    (Interface.init s ns w).2.failSet = w.failSet := rfl

@[simp] theorem init_nss (s : String) (ns : Nat) (w : World) :
    (Interface.init s ns w).2.nss = w.nss := rfl

@[simp] theorem init_gen (s : String) (ns : Nat) (w : World) :
    (Interface.init s ns w).2.gen = w.gen + 1 := rfl

@[simp] theorem init_trace (s : String) (ns : Nat) (w : World) :
    (Interface.init s ns w).2.trace = w.trace := rfl

@[simp] theorem init_ifs_length (s : String) (ns : Nat) (w : World) :
    (Interface.init s ns w).2.ifs.length = w.ifs.length + 1 := by
  unfold Interface.init
  simp

@[simp] theorem init_ifs (s : String) (ns : Nat) (w : World) :
    (Interface.init s ns w).2.ifs =
      w.ifs ++ [{ defIfObj with name := s, id := Ident.gen w.gen, nsRef := ns }] := rfl

theorem getIf_init_of_eq {w : World} {j : Nat} (h : j = w.ifs.length) (s : String) (ns : Nat) :
    getIf (Interface.init s ns w).2 j = { defIfObj with name := s, id := Ident.gen w.gen, nsRef := ns } := by
  subst h
  exact listGetD_append_len w.ifs [] _ defIfObj

theorem getNs_init (s : String) (ns : Nat) (w : World) (r : Nat) :
    getNs (Interface.init s ns w).2 r = getNs w r := rfl

theorem mirred_effects {w : World} {i : Nat} (hfail : w.failSet = []) (hi : i < w.ifs.length) :
    Interface.mirred_to_ifb i w =
      (Except.ok (),
        { gen := w.gen + 1,
          nss := w.nss,
          ifs := w.ifs.set i
            { getIf w i with
              mirred_to_ifb := true, ifb := some w.ifs.length,
              qdisc_list := (getIf w i).qdisc_list ++
                [{ qdisc := "htb", parent := "root", handle := "1:", params := [("default", "1")] },
                 { qdisc := "netem", parent := "1:1", handle := "11:", params := [] }],
              cls_list := (getIf w i).cls_list ++
                [{ qdisc := "htb", parent := "1:", classid := "1:1", params := [("rate", "10mbit")] }],
              liveQdiscs := (getIf w i).liveQdiscs ++
                [{ qdisc := "htb", parent := "root", handle := "1:", params := [("default", "1")] },
                 { qdisc := "netem", parent := "1:1", handle := "11:", params := [] }],
              liveCls := (getIf w i).liveCls ++
                [{ qdisc := "htb", parent := "1:", classid := "1:1", params := [("rate", "10mbit")] }],
              liveFltrs := (getIf w i).liveFltrs ++ [redirectFltr (Ident.gen w.gen)] } ++
            [{ defIfObj with name := "ifb", id := Ident.gen w.gen, nsRef := (getIf w i).nsRef }],
          trace := w.trace ++
            [EngineCmd.setupIfb (getNs w (getIf w i).nsRef).id (Ident.gen w.gen),
             EngineCmd.installQdisc (getNs w (getIf w i).nsRef).id (getIf w i).id
               { qdisc := "htb", parent := "root", handle := "1:", params := [("default", "1")] },
             EngineCmd.installCls (getNs w (getIf w i).nsRef).id (getIf w i).id
               { qdisc := "htb", parent := "1:", classid := "1:1", params := [("rate", "10mbit")] },
             EngineCmd.installQdisc (getNs w (getIf w i).nsRef).id (getIf w i).id
               { qdisc := "netem", parent := "1:1", handle := "11:", params := [] },
             EngineCmd.addFltrRaw (getNs w (getIf w i).nsRef).id (getIf w i).id
               ("ip") ("1") ("u32") ("1:") (redirectParams (Ident.gen w.gen))],
          failSet := w.failSet }) := by
  have hne : i ≠ w.ifs.length := Nat.ne_of_lt hi
  simp only [Interface.mirred_to_ifb, Interface.create_ifb, Interface.add_qdisc,
    Interface.add_cls]
  simp [runCmd_nil, hfail, hi, hne, getIf_updateIf_self, getIf_updateIf_ne,
    getIf_init_of_eq, getIf_init_lt, getNs_init, updateIf, getIf, getNs, listGetD_set_self,
    listGetD_append_lt, listGetD_append_len, listSet_append_lt, List.set_set,
    listGetD_set_ne, redirectFltr, List.getElem_set_self, List.getElem_set_ne,
    List.getElem_append_left, List.getElem_concat_length, List.getElem?_append_left,
    List.getElem?_set_self, List.getElem?_set_ne]

/-- C1: starting from an interface that has never been shaped (flag unset, no
live class), calling set_min_bandwidth twice with rates r1 then r2 succeeds
and leaves exactly one rate-limiting htb class node in the live pipeline,
whose rate parameter is r2; the second call mutates that class in place: the
qdisc tree, the filters, the mirror reference and the number of mirror setups
are all unchanged by the second call. -/
theorem claim_C1 (w : World) (i : Nat) (r1 r2 : String)
    (hf : w.failSet = []) (hi : i < w.ifs.length)
    (hm : (getIf w i).mirred_to_ifb = false) (hc : (getIf w i).liveCls = []) :
    (Interface.set_min_bandwidth i r1 w).1 = Except.ok () ∧
    (Interface.set_min_bandwidth i r2 (Interface.set_min_bandwidth i r1 w).2).1 = Except.ok () ∧
    (getIf (Interface.set_min_bandwidth i r2 (Interface.set_min_bandwidth i r1 w).2).2 i).liveCls =
      [{ qdisc := "htb", parent := "1:", classid := "1:1", params := [("rate", r2)] }] ∧
    (getIf (Interface.set_min_bandwidth i r2 (Interface.set_min_bandwidth i r1 w).2).2 i).liveQdiscs =
      (getIf (Interface.set_min_bandwidth i r1 w).2 i).liveQdiscs ∧
    (getIf (Interface.set_min_bandwidth i r2 (Interface.set_min_bandwidth i r1 w).2).2 i).liveFltrs =
      (getIf (Interface.set_min_bandwidth i r1 w).2 i).liveFltrs ∧
    (getIf (Interface.set_min_bandwidth i r2 (Interface.set_min_bandwidth i r1 w).2).2 i).ifb =
      (getIf (Interface.set_min_bandwidth i r1 w).2 i).ifb ∧
    countIfb (Interface.set_min_bandwidth i r2 (Interface.set_min_bandwidth i r1 w).2).2.trace =
      countIfb (Interface.set_min_bandwidth i r1 w).2.trace := by
  have hne : i ≠ w.ifs.length := Nat.ne_of_lt hi
  have hc2 : w.ifs[i].liveCls = [] := by
    rw [← List.getD_eq_getElem w.ifs defIfObj hi]
    exact hc
  simp only [Interface.set_min_bandwidth, hm]
  rw [mirred_effects hf hi]
  simp [runCmd_nil, hf, hi, hne, getIf_updateIf_self, getIf_updateIf_ne,
    getIf_init_of_eq, getIf_init_lt, getNs_init, updateIf, getIf, getNs, listGetD_set_self,
    listGetD_append_lt, listGetD_append_len, listSet_append_lt, List.set_set,
    listGetD_set_ne, redirectFltr, List.getElem_set_self, List.getElem_set_ne,
    List.getElem_append_left, List.getElem_concat_length, List.getElem?_append_left,
    List.getElem?_set_self, List.getElem?_set_ne, hc, hc2, setParam, countIfb, isSetupIfb,
    List.filter_append]

/-- C6: on a never-shaped interface, set_delay alone creates exactly one IFB
mirror and the canonical three-stage pipeline (root htb qdisc 1:, default
class 1:1, netem qdisc 11:, plus the redirect filter), with the same pipeline
skeleton as when set_min_bandwidth is called first; and on any interface whose
mirrored flag is already set, a subsequent set_delay or set_min_bandwidth
(succeeding or not) keeps the mirror reference, adds no mirror setup command,
and leaves the flag set, so the mirror is never created twice. -/
theorem claim_C6 :
    (∀ (w : World) (i : Nat) (d r : String),
      w.failSet = [] → i < w.ifs.length →
      (getIf w i).mirred_to_ifb = false → (getIf w i).liveQdiscs = [] →
      (getIf w i).liveCls = [] → (getIf w i).liveFltrs = [] →
      (Interface.set_delay i d w).1 = Except.ok () ∧
      (getIf (Interface.set_delay i d w).2 i).ifb = some w.ifs.length ∧
      (getIf (Interface.set_delay i d w).2 i).liveQdiscs =
        [{ qdisc := "htb", parent := "root", handle := "1:", params := [("default", "1")] },
         { qdisc := "netem", parent := "1:1", handle := "11:", params := [("delay", d)] }] ∧
      (getIf (Interface.set_delay i d w).2 i).liveCls =
        [{ qdisc := "htb", parent := "1:", classid := "1:1", params := [("rate", "10mbit")] }] ∧
      (getIf (Interface.set_delay i d w).2 i).liveFltrs = [redirectFltr (Ident.gen w.gen)] ∧
      countIfb (Interface.set_delay i d w).2.trace = countIfb w.trace + 1 ∧
      skeleton (getIf (Interface.set_delay i d w).2 i) =
        skeleton (getIf (Interface.set_min_bandwidth i r w).2 i))
    ∧ (∀ (w : World) (i : Nat) (d r : String), i < w.ifs.length →
      (getIf w i).mirred_to_ifb = true →
      ((getIf (Interface.set_delay i d w).2 i).ifb = (getIf w i).ifb ∧
       countIfb (Interface.set_delay i d w).2.trace = countIfb w.trace ∧
       (getIf (Interface.set_delay i d w).2 i).mirred_to_ifb = true) ∧
      ((getIf (Interface.set_min_bandwidth i r w).2 i).ifb = (getIf w i).ifb ∧
       countIfb (Interface.set_min_bandwidth i r w).2.trace = countIfb w.trace ∧
       (getIf (Interface.set_min_bandwidth i r w).2 i).mirred_to_ifb = true)) := by
  constructor
  · intro w i d r hf hi hm hq hc hfl
    have hne : i ≠ w.ifs.length := Nat.ne_of_lt hi
    have hq2 : w.ifs[i].liveQdiscs = [] := by
      rw [← List.getD_eq_getElem w.ifs defIfObj hi]
      exact hq
    have hc2 : w.ifs[i].liveCls = [] := by
      rw [← List.getD_eq_getElem w.ifs defIfObj hi]
      exact hc
    have hfl2 : w.ifs[i].liveFltrs = [] := by
      rw [← List.getD_eq_getElem w.ifs defIfObj hi]
      exact hfl
    simp only [Interface.set_delay, Interface.set_min_bandwidth, hm]
    rw [mirred_effects hf hi]
    simp [runCmd_nil, hf, hi, hne, getIf_updateIf_self, getIf_updateIf_ne,
      getIf_init_of_eq, getIf_init_lt, getNs_init, updateIf, getIf, getNs, listGetD_set_self,
      listGetD_append_lt, listGetD_append_len, listSet_append_lt, List.set_set,
      listGetD_set_ne, redirectFltr, List.getElem_set_self, List.getElem_set_ne,
      List.getElem_append_left, List.getElem_concat_length, List.getElem?_append_left,
      List.getElem?_set_self, List.getElem?_set_ne, hq2, hc2, hfl2, setParam, countIfb,
      isSetupIfb, List.filter_append, skeleton]
  · intro w i d r hi hm
    have hifb : ∀ (c : EngineCmd) (g : IfObj → IfObj), isSetupIfb c = false →
        (∀ o : IfObj, (g o).ifb = o.ifb ∧ (g o).mirred_to_ifb = o.mirred_to_ifb) →
        (getIf (andThen (runCmd c w) (fun _ w2 => (Except.ok (), updateIf w2 i g))).2 i).ifb =
          (getIf w i).ifb ∧
        countIfb (andThen (runCmd c w) (fun _ w2 => (Except.ok (), updateIf w2 i g))).2.trace =
          countIfb w.trace ∧
        (getIf (andThen (runCmd c w) (fun _ w2 => (Except.ok (), updateIf w2 i g))).2 i).mirred_to_ifb =
          true := by
      intro c g hsc hg
      unfold runCmd
      split
      · simp only [andThen_error]
        exact ⟨trivial, trivial, hm⟩
      · have hi2 : i < (World.mk w.gen w.nss w.ifs (w.trace ++ [c]) w.failSet).ifs.length := hi
        simp only [andThen_ok]
        rw [getIf_updateIf_self hi2]
        refine ⟨(hg _).1, ?_, ?_⟩
        · simp [updateIf, countIfb, List.filter_append, hsc]
        · rw [(hg _).2]
          exact hm
    constructor
    · simp only [Interface.set_delay, hm]
      simp only [show (true = false) = False by simp, if_neg (fun h => h : ¬ False)]
      simp only [andThen_ok]
      exact hifb _ _ rfl (fun o => ⟨rfl, rfl⟩)
    · simp only [Interface.set_min_bandwidth, hm]
      simp only [show (true = false) = False by simp, if_neg (fun h => h : ¬ False)]
      simp only [andThen_ok]
      exact hifb _ _ rfl (fun o => ⟨rfl, rfl⟩)

theorem claim_C1_witness :
    (demoW.failSet = [] ∧ 0 < demoW.ifs.length ∧ (getIf demoW 0).mirred_to_ifb = false ∧
      (getIf demoW 0).liveCls = []) ∧
    (getIf (Interface.set_min_bandwidth 0 ("5mbit")
        (Interface.set_min_bandwidth 0 ("10mbit") demoW).2).2 0).liveCls =
      [{ qdisc := "htb", parent := "1:", classid := "1:1", params := [("rate", "5mbit")] }] :=
  ⟨⟨rfl, by decide, by decide, by decide⟩,
   (claim_C1 demoW 0 ("10mbit") ("5mbit") rfl (by decide) (by decide) (by decide)).2.2.1⟩

theorem claim_C6_witness :
    (demoW.failSet = [] ∧ 0 < demoW.ifs.length ∧ (getIf demoW 0).mirred_to_ifb = false ∧
      (getIf demoW 0).liveQdiscs = [] ∧ (getIf demoW 0).liveCls = [] ∧
      (getIf demoW 0).liveFltrs = []) ∧
    (getIf (Interface.set_delay 0 ("10ms") demoW).2 0).liveQdiscs =
      [{ qdisc := "htb", parent := "root", handle := "1:", params := [("default", "1")] },
       { qdisc := "netem", parent := "1:1", handle := "11:", params := [("delay", "10ms")] }] ∧
    countIfb (Interface.set_delay 0 ("10ms") demoW).2.trace = countIfb demoW.trace + 1 :=
  ⟨⟨rfl, by decide, by decide, by decide, by decide, by decide⟩,
   (claim_C6.1 demoW 0 ("10ms") ("5mbit") rfl (by decide) (by decide) (by decide)
      (by decide) (by decide)).2.2.1,
   (claim_C6.1 demoW 0 ("10ms") ("5mbit") rfl (by decide) (by decide) (by decide)
      (by decide) (by decide)).2.2.2.2.2.1⟩

/-! Positional lemmas for two freshly appended store entries. -/

theorem listGetD_append_len1 {α : Type} (l l' : List α) (a b d : α) :
    (l ++ a :: b :: l').getD (l.length + 1) d = b := by
  induction l with
  | nil => rfl
  | cons y ys ih => exact ih

theorem listSet_append_len1 {α : Type} (l l' : List α) (a b x : α) :
    (l ++ a :: b :: l').set (l.length + 1) x = l ++ a :: x :: l' := by
  induction l with
  | nil => rfl
  | cons y ys ih => simp [ih]

theorem listGetElem?_append_len {α : Type} (l l' : List α) (a : α) :
    (l ++ a :: l')[l.length]? = some a := by
  induction l with
  | nil => simp
  | cons y ys ih => simpa using ih

theorem listGetElem?_append_len1 {α : Type} (l l' : List α) (a b : α) :
    (l ++ a :: b :: l')[l.length + 1]? = some b := by
  induction l with
  | nil => simp
  | cons y ys ih => simpa using ih

theorem listGetElem_append_len {α : Type} (l l' : List α) (a : α) (i : Nat)
    (hi : i = l.length) (h : i < (l ++ a :: l').length) : (l ++ a :: l')[i] = a := by
  subst hi
  induction l with
  | nil => rfl
  | cons y ys ih => simpa using ih (by simp)

theorem listGetElem_append_len1 {α : Type} (l l' : List α) (a b : α) (i : Nat)
    (hi : i = l.length + 1) (h : i < (l ++ a :: b :: l').length) :
    (l ++ a :: b :: l')[i] = b := by
  subst hi
  induction l with
  | nil => rfl
  | cons y ys ih => simpa using ih (by simp)

@[simp] theorem getNs_is_default_updateNs (w : World) (r s : Nat) (g : NsObj → List Nat) :
    (getNs (updateNs w r (fun o => { o with interfaces := g o })) s).is_default =
      (getNs w s).is_default := by
  by_cases h : r < w.nss.length
  · by_cases hrs : r = s
    · subst hrs
      rw [getNs_updateNs_self h]
      simp [NsObj.is_default]
    · rw [getNs_updateNs_ne hrs]
  · unfold updateNs getNs
    rw [listSet_of_len_le (Nat.le_of_not_lt h)]

@[simp] theorem is_default_updateNs_nss (w : World) (r s : Nat) (g : NsObj → List Nat) :
    ((updateNs w r (fun o => { o with interfaces := g o })).nss[s]?.getD defNsObj).is_default =
      (w.nss[s]?.getD defNsObj).is_default := by
  have h := getNs_is_default_updateNs w r s g
  simpa [getNs, List.getD_eq_getElem?_getD] using h

theorem connect_tail_effects (w : World) (ns1 ns2 : Nat) (m1 m2 : String)
    (hfail : w.failSet = []) (hd1 : (getNs w ns1).is_default = false)
    (hd2 : (getNs w ns2).is_default = false) :
    (connectTail ns1 ns2 m1 m2 w).1 = Except.ok (w.ifs.length, w.ifs.length + 1) ∧
    (getIf (connectTail ns1 ns2 m1 m2 w).2 w.ifs.length).name = m1 ∧
    (getIf (connectTail ns1 ns2 m1 m2 w).2 (w.ifs.length + 1)).name = m2 ∧
    (getIf (connectTail ns1 ns2 m1 m2 w).2 w.ifs.length).id = Ident.gen w.gen ∧
    (getIf (connectTail ns1 ns2 m1 m2 w).2 (w.ifs.length + 1)).id = Ident.gen (w.gen + 1) ∧
    (getIf (connectTail ns1 ns2 m1 m2 w).2 w.ifs.length).pair = some (w.ifs.length + 1) ∧
    (getIf (connectTail ns1 ns2 m1 m2 w).2 (w.ifs.length + 1)).pair = some w.ifs.length := by
  have hd1b : (w.nss[ns1]?.getD defNsObj).is_default = false := by
    simpa [getNs, List.getD_eq_getElem?_getD] using hd1
  have hd2b : (w.nss[ns2]?.getD defNsObj).is_default = false := by
    simpa [getNs, List.getD_eq_getElem?_getD] using hd2
  simp only [connectTail, Veth.init, Interface.set_pair, Namespace.add_interface,
    Interface.set_mode]
  simp [runCmd_nil, hfail, hd1, hd2, hd1b, hd2b, getIf_updateIf_self, getIf_updateIf_ne,
    getIf_init_of_eq, getIf_init_lt, getNs_init, updateIf, getIf, getNs, listGetD_set_self,
    listGetD_append_lt, listGetD_append_len, listGetD_append_len1, listSet_append_lt,
    listSet_append_len, listSet_append_len1, List.set_set, listGetD_set_ne,
    List.getElem_set_self, List.getElem_set_ne, List.getElem_append_left,
    List.getElem_concat_length, List.getElem?_append_left, List.getElem?_set_self,
    List.getElem?_set_ne, listGetElem?_append_len, listGetElem?_append_len1,
    listGetElem_append_len, listGetElem_append_len1]

/-- C2: with both names omitted, connect uses the ordinal k returned by
number_of_connections at call time and names both endpoints by concatenating
the two namespace identifiers with k; in the concrete scenario two successive
no-name connects between fresh namespaces n0 and r0 use ordinals 0 then 1,
yield four distinct interface identifiers, and number_of_connections then
returns 2. -/
theorem claim_C2 :
    (∀ (w : World) (ns1 ns2 k : Nat),
      w.failSet = [] →
      (getNs w ns1).is_default = false → (getNs w ns2).is_default = false →
      number_of_connections ns1 ns2 w = Except.ok k →
      (connect ns1 ns2 ("") ("") w).1 = Except.ok (w.ifs.length, w.ifs.length + 1) ∧
      (getIf (connect ns1 ns2 ("") ("") w).2 w.ifs.length).name =
        (getNs w ns1).id.str ++ "-" ++ (getNs w ns2).id.str ++ "-" ++ Nat.repr k ∧
      (getIf (connect ns1 ns2 ("") ("") w).2 (w.ifs.length + 1)).name =
        (getNs w ns2).id.str ++ "-" ++ (getNs w ns1).id.str ++ "-" ++ Nat.repr k)
    ∧ (scR1.1 = Except.ok 0 ∧ scR2.1 = Except.ok 1 ∧
      scC1.1 = Except.ok (0, 1) ∧ scC2.1 = Except.ok (2, 3) ∧
      (getIf scC1.2 0).name = "0-1-0" ∧ (getIf scC1.2 1).name = "1-0-0" ∧
      (getIf scC2.2 2).name = "0-1-1" ∧ (getIf scC2.2 3).name = "1-0-1" ∧
      (getIf scC2.2 0).id ≠ (getIf scC2.2 1).id ∧
      (getIf scC2.2 0).id ≠ (getIf scC2.2 2).id ∧
      (getIf scC2.2 0).id ≠ (getIf scC2.2 3).id ∧
      (getIf scC2.2 1).id ≠ (getIf scC2.2 2).id ∧
      (getIf scC2.2 1).id ≠ (getIf scC2.2 3).id ∧
      (getIf scC2.2 2).id ≠ (getIf scC2.2 3).id ∧
      number_of_connections 0 1 scC2.2 = Except.ok 2) := by
  constructor
  · intro w ns1 ns2 k hf hd1 hd2 hk
    have hc : connect ns1 ns2 ("") ("") w =
        connectTail ns1 ns2 (autoName w ns1 ns2 k) (autoName w ns2 ns1 k) w := by
      simp [connect, hk]
    have h := connect_tail_effects w ns1 ns2 (autoName w ns1 ns2 k)
      (autoName w ns2 ns1 k) hf hd1 hd2
    rw [hc]
    exact ⟨h.1, h.2.1, h.2.2.1⟩
  · refine ⟨by decide, by decide, by decide, by decide, by decide, by decide, by decide,
      by decide, by decide, by decide, by decide, by decide, by decide, by decide, by decide⟩

theorem claim_C2_witness :
    (demoW.failSet = [] ∧ (getNs demoW 0).is_default = false ∧
      (getNs demoW 1).is_default = false ∧
      number_of_connections 0 1 demoW = Except.ok 1) ∧
    (getIf (connect 0 1 ("") ("") demoW).2 demoW.ifs.length).name =
      (getNs demoW 0).id.str ++ "-" ++ (getNs demoW 1).id.str ++ "-" ++ Nat.repr 1 :=
  ⟨⟨rfl, by decide, by decide, by decide⟩,
   (claim_C2.1 demoW 0 1 1 rfl (by decide) (by decide) (by decide)).2.1⟩

/-! Pairing symmetry machinery: how each operation transforms the pair list. -/

theorem ifsPairs_length (w : World) : (ifsPairs w).length = w.ifs.length := by
  simp [ifsPairs]

theorem getIf_pair_eq (w : World) (i : Nat) :
    (getIf w i).pair = (ifsPairs w).getD i none :=
  (listGetD_map (fun o => o.pair) w.ifs i defIfObj).symm

theorem ifsPairs_runCmd (c : EngineCmd) (w : World) : ifsPairs (runCmd c w).2 = ifsPairs w := by
  unfold ifsPairs
  rw [runCmd_ifs]

theorem ifsPairs_updateIf_eq (w : World) (i : Nat) (f : IfObj → IfObj) :
    ifsPairs (updateIf w i f) = (ifsPairs w).set i ((f (getIf w i)).pair) := by
  unfold ifsPairs updateIf
  exact listMap_set _ _ _ _

theorem ifsPairs_updateIf (w : World) (i : Nat) {f : IfObj → IfObj}
    (hf : ∀ o : IfObj, (f o).pair = o.pair) : ifsPairs (updateIf w i f) = ifsPairs w := by
  rw [ifsPairs_updateIf_eq, hf, getIf_pair_eq]
  by_cases hb : i < (ifsPairs w).length
  · exact listSet_getD_self hb _
  · exact listSet_of_len_le (Nat.le_of_not_lt hb) _

theorem ifsPairs_init (s : String) (ns : Nat) (w : World) :
    ifsPairs (Interface.init s ns w).2 = ifsPairs w ++ [none] := by
  unfold ifsPairs Interface.init
  simp

theorem pairOkL_snoc_none {ps : List (Option Nat)} (h : pairOkL ps) :
    pairOkL (ps ++ [none]) := by
  intro i j hij
  rcases Nat.lt_trichotomy i ps.length with hlt | heq | hgt
  · rw [listGetD_append_lt hlt] at hij
    obtain ⟨hj, hback⟩ := h i j hij
    refine ⟨by simp; omega, ?_⟩
    rw [listGetD_append_lt hj]
    exact hback
  · rw [heq, listGetD_append_len] at hij
    exact Option.noConfusion hij
  · rw [listGetD_of_len_le (by simp; omega)] at hij
    exact Option.noConfusion hij

theorem pairOkL_link {ps : List (Option Nat)} (h : pairOkL ps) :
    pairOkL (ps ++ [some (ps.length + 1), some ps.length]) := by
  intro i j hij
  by_cases h1 : i < ps.length
  · rw [listGetD_append_lt h1] at hij
    obtain ⟨hj, hback⟩ := h i j hij
    refine ⟨by simp; omega, ?_⟩
    rw [listGetD_append_lt hj]
    exact hback
  · by_cases h2 : i = ps.length
    · subst h2
      rw [listGetD_append_len] at hij
      obtain rfl : ps.length + 1 = j := Option.some.inj hij
      refine ⟨by simp, ?_⟩
      rw [listGetD_append_len1]
    · by_cases h3 : i = ps.length + 1
      · subst h3
        rw [listGetD_append_len1] at hij
        obtain rfl : ps.length = j := Option.some.inj hij
        refine ⟨by simp, ?_⟩
        rw [listGetD_append_len]
      · rw [listGetD_of_len_le (by simp; omega)] at hij
        exact Option.noConfusion hij

theorem pairOkW_of_eq {w v : World} (h : ifsPairs v = ifsPairs w) (hp : pairOkW w) :
    pairOkW v := by
  unfold pairOkW
  rw [h]
  exact hp

theorem pres_runCmd {c : EngineCmd} {w : World} (hp : pairOkW w) : pairOkW (runCmd c w).2 :=
  pairOkW_of_eq (ifsPairs_runCmd c w) hp

theorem pres_updateIf {w : World} {i : Nat} {f : IfObj → IfObj}
    (hf : ∀ o : IfObj, (f o).pair = o.pair) (hp : pairOkW w) : pairOkW (updateIf w i f) :=
  pairOkW_of_eq (ifsPairs_updateIf w i hf) hp

theorem pres_init {s : String} {ns : Nat} {w : World} (hp : pairOkW w) :
    pairOkW (Interface.init s ns w).2 := by
  unfold pairOkW
  rw [ifsPairs_init]
  exact pairOkL_snoc_none hp

theorem pres_add_qdisc {i : Nat} {q p h : String} {ps : List (String × String)} {w : World}
    (hp : pairOkW w) : pairOkW (Interface.add_qdisc i q p h ps w).2 := by
  unfold Interface.add_qdisc
  exact andThen_keep (pres_runCmd hp) (fun _ _ hv => pres_updateIf (fun _ => rfl) hv)

theorem pres_add_cls {i : Nat} {q p c : String} {ps : List (String × String)} {w : World}
    (hp : pairOkW w) : pairOkW (Interface.add_cls i q p c ps w).2 := by
  unfold Interface.add_cls
  exact andThen_keep (pres_runCmd hp) (fun _ _ hv => pres_updateIf (fun _ => rfl) hv)

theorem pres_add_filter {i : Nat} {pr ft fl proto par hd : String}
    {ps : List (String × String)} {w : World}
    (hp : pairOkW w) : pairOkW (Interface.add_filter i pr ft fl proto par hd ps w).2 := by
  unfold Interface.add_filter
  exact andThen_keep (pres_runCmd hp) (fun _ _ hv => pres_updateIf (fun _ => rfl) hv)

theorem pres_create_ifb {i : Nat} {w : World} (hp : pairOkW w) :
    pairOkW (Interface.create_ifb i w).2 :=
  pres_runCmd (pres_updateIf (fun _ => rfl) (pres_init hp))

theorem pres_mirred {i : Nat} {w : World} (hp : pairOkW w) :
    pairOkW (Interface.mirred_to_ifb i w).2 := by
  unfold Interface.mirred_to_ifb
  exact andThen_keep (pres_create_ifb (pres_updateIf (fun _ => rfl) hp)) (fun _ _ h1 =>
    andThen_keep (pres_add_qdisc h1) (fun _ _ h2 =>
    andThen_keep (pres_add_cls h2) (fun _ _ h3 =>
    andThen_keep (pres_add_qdisc h3) (fun _ _ h4 =>
    andThen_keep (pres_runCmd h4) (fun _ _ h5 => pres_updateIf (fun _ => rfl) h5)))))

theorem pres_smb {i : Nat} {r : String} {w : World} (hp : pairOkW w) :
    pairOkW (Interface.set_min_bandwidth i r w).2 := by
  unfold Interface.set_min_bandwidth
  refine andThen_keep ?_ (fun _ _ hv =>
    andThen_keep (pres_runCmd hv) (fun _ _ hv2 => pres_updateIf (fun _ => rfl) hv2))
  by_cases hb : (getIf w i).mirred_to_ifb = false
  · rw [if_pos hb]
    exact pres_mirred hp
  · rw [if_neg hb]
    exact hp

theorem pres_sdl {i : Nat} {d : String} {w : World} (hp : pairOkW w) :
    pairOkW (Interface.set_delay i d w).2 := by
  unfold Interface.set_delay
  refine andThen_keep ?_ (fun _ _ hv =>
    andThen_keep (pres_runCmd hv) (fun _ _ hv2 => pres_updateIf (fun _ => rfl) hv2))
  by_cases hb : (getIf w i).mirred_to_ifb = false
  · rw [if_pos hb]
    exact pres_mirred hp
  · rw [if_neg hb]
    exact hp

theorem pres_set_qdisc (i : Nat) (q : String) {w : World} (hp : pairOkW w) :
    pairOkW (Interface.set_qdisc i q w).2 := by
  unfold Interface.set_qdisc
  refine andThen_keep ?_ (fun _ v hv => ?_)
  · rw [if_neg (by decide)]
    exact hp
  · cases hifb : (getIf v i).ifb with
    | none =>
      simp only [hifb]
      exact hv
    | some r =>
      simp only [hifb]
      exact andThen_keep (pres_add_qdisc hv) (fun _ _ h => h)

theorem pres_set_address {i : Nat} {a : Address} {w : World} (hp : pairOkW w) :
    pairOkW (Interface.set_address i a w).2 := by
  unfold Interface.set_address
  by_cases hd : (getNs w (getIf w i).nsRef).is_default = false
  · rw [if_pos hd]
    exact andThen_keep (pres_runCmd hp) (fun _ _ hv => pres_updateIf (fun _ => rfl) hv)
  · rw [if_neg hd]
    exact hp

theorem pres_set_mode {i : Nat} {m : String} {w : World} (hp : pairOkW w) :
    pairOkW (Interface.set_mode i m w).2 := by
  unfold Interface.set_mode
  by_cases hv : m = "UP" ∨ m = "DOWN"
  · rw [if_pos hv]
    by_cases hd : (getNs w (getIf w i).nsRef).is_default = false
    · rw [if_pos hd]
      exact pres_runCmd hp
    · rw [if_neg hd]
      exact hp
  · rw [if_neg hv]
    exact hp

theorem pres_add_interface {r i : Nat} {w : World} (hp : pairOkW w) :
    pairOkW (Namespace.add_interface r i w).2 := by
  unfold Namespace.add_interface
  refine pres_runCmd (pres_updateIf (fun _ => rfl) ?_)
  exact pairOkW_of_eq rfl hp

theorem pres_ns_init {s : String} {w : World} (hp : pairOkW w) :
    pairOkW (Namespace.init s w).2 := by
  unfold Namespace.init
  by_cases hs : s ≠ ""
  · rw [if_pos hs]
    refine andThen_keep ?_ (fun _ _ hv => hv)
    exact pres_runCmd (pairOkW_of_eq rfl hp)
  · rw [if_neg hs]
    exact pairOkW_of_eq rfl hp

theorem pres_add_route {r : Nat} {d n : Address} {v : Nat} {w : World} (hp : pairOkW w) :
    pairOkW (Namespace.add_route r d n v w).2 :=
  pres_runCmd hp

theorem ifsPairs_veth (ns1 ns2 : Nat) (m1 m2 : String) (w : World) :
    ifsPairs (Veth.init ns1 ns2 m1 m2 w).2 =
      ifsPairs w ++ [some (w.ifs.length + 1), some w.ifs.length] := by
  unfold Veth.init
  have hstep : ∀ (c : EngineCmd) (v : World) (x : Nat × Nat),
      ifsPairs (andThen (runCmd c v) fun _ w5 => (Except.ok x, w5)).2 = ifsPairs v := by
    intro c v x
    unfold runCmd
    split
    · rfl
    · simp [andThen, ifsPairs]
  rw [hstep]
  simp only [Interface.set_pair]
  rw [ifsPairs_updateIf_eq, ifsPairs_updateIf_eq, ifsPairs_init, ifsPairs_init]
  have hl : (ifsPairs w ++ [none] ++ [none] : List (Option Nat)) =
      ifsPairs w ++ none :: none :: [] := by simp
  rw [hl]
  have hn : w.ifs.length = (ifsPairs w).length := (ifsPairs_length w).symm
  simp only [init_fst, init_ifs_length]
  rw [hn, listSet_append_len]
  have hl2 : (ifsPairs w ++ some ((ifsPairs w).length + 1) :: none :: [] : List (Option Nat)) =
      ifsPairs w ++ some ((ifsPairs w).length + 1) :: none :: [] := rfl
  rw [listSet_append_len1]

theorem pres_veth {ns1 ns2 : Nat} {m1 m2 : String} {w : World} (hp : pairOkW w) :
    pairOkW (Veth.init ns1 ns2 m1 m2 w).2 := by
  unfold pairOkW
  rw [ifsPairs_veth]
  have h := pairOkL_link hp
  rwa [ifsPairs_length] at h

theorem pres_connectTail {ns1 ns2 : Nat} {m1 m2 : String} {w : World} (hp : pairOkW w) :
    pairOkW (connectTail ns1 ns2 m1 m2 w).2 := by
  unfold connectTail
  exact andThen_keep (pres_veth hp) (fun _ _ h1 =>
    andThen_keep (pres_add_interface h1) (fun _ _ h2 =>
    andThen_keep (pres_add_interface h2) (fun _ _ h3 =>
    andThen_keep (pres_set_mode h3) (fun _ _ h4 =>
    andThen_keep (pres_set_mode h4) (fun _ _ h5 => h5)))))

theorem pres_connect {ns1 ns2 : Nat} {m1 m2 : String} {w : World} (hp : pairOkW w) :
    pairOkW (connect ns1 ns2 m1 m2 w).2 := by
  unfold connect
  split
  · cases hnoc : number_of_connections ns1 ns2 w with
    | error e => simp only [hnoc]; exact hp
    | ok k => simp only [hnoc]; exact pres_connectTail hp
  · exact pres_connectTail hp

theorem pairOkL_of_pairOkB {ps : List (Option Nat)} (h : pairOkB ps = true) : pairOkL ps := by
  intro i j hij
  by_cases hb : i < ps.length
  · have h2 := List.all_eq_true.mp h i (List.mem_range.mpr hb)
    rw [hij] at h2
    simp only [Bool.and_eq_true, decide_eq_true_eq] at h2
    exact h2
  · rw [listGetD_of_len_le (Nat.le_of_not_lt hb)] at hij
    exact Option.noConfusion hij

/-- C5: every successful connect leaves its two returned interfaces mutually
paired, and pairing symmetry (A.pair = B implies B.pair = A, with every pair
reference in range) is preserved by every public operation of the core,
whether the operation succeeds or fails. -/
theorem claim_C5 :
    (∀ (w : World) (ns1 ns2 : Nat) (n1 n2 : String) (p : Nat × Nat),
      w.failSet = [] →
      (getNs w ns1).is_default = false → (getNs w ns2).is_default = false →
      (connect ns1 ns2 n1 n2 w).1 = Except.ok p →
      (getIf (connect ns1 ns2 n1 n2 w).2 p.1).pair = some p.2 ∧
      (getIf (connect ns1 ns2 n1 n2 w).2 p.2).pair = some p.1)
    ∧ (∀ (op : CoreOp) (w : World), pairOkW w → pairOkW (CoreOp.run op w).2) := by
  constructor
  · intro w ns1 ns2 n1 n2 p hf hd1 hd2 hok
    by_cases hauto : n1 = "" ∧ n2 = ""
    · cases hnoc : number_of_connections ns1 ns2 w with
      | error e =>
        have he : (connect ns1 ns2 n1 n2 w).1 = Except.error e := by
          simp [connect, hauto.1, hauto.2, hnoc]
        rw [he] at hok
        exact Except.noConfusion hok
      | ok k =>
        have hc : connect ns1 ns2 n1 n2 w =
            connectTail ns1 ns2 (autoName w ns1 ns2 k) (autoName w ns2 ns1 k) w := by
          simp [connect, hauto.1, hauto.2, hnoc]
        rw [hc] at hok ⊢
        have h := connect_tail_effects w ns1 ns2 (autoName w ns1 ns2 k)
          (autoName w ns2 ns1 k) hf hd1 hd2
        have hp : p = (w.ifs.length, w.ifs.length + 1) := by
          rw [h.1] at hok
          exact (Except.ok.inj hok).symm
        rw [hp]
        exact ⟨h.2.2.2.2.2.1, h.2.2.2.2.2.2⟩
    · have hc : connect ns1 ns2 n1 n2 w = connectTail ns1 ns2 n1 n2 w := by
        simp [connect, hauto]
      rw [hc] at hok ⊢
      have h := connect_tail_effects w ns1 ns2 n1 n2 hf hd1 hd2
      have hp : p = (w.ifs.length, w.ifs.length + 1) := by
        rw [h.1] at hok
        exact (Except.ok.inj hok).symm
      rw [hp]
      exact ⟨h.2.2.2.2.2.1, h.2.2.2.2.2.2⟩
  · intro op w hp
    cases op with
    | nsInit s =>
      simp only [CoreOp.run]
      exact andThen_keep (pres_ns_init hp) (fun _ _ h => h)
    | routeAdd r d n i =>
      exact pres_add_route hp
    | addIntf r i =>
      exact pres_add_interface hp
    | conn a b s t =>
      simp only [CoreOp.run]
      exact andThen_keep (pres_connect hp) (fun _ _ h => h)
    | setAddress i a =>
      exact pres_set_address hp
    | setMode i m =>
      exact pres_set_mode hp
    | addQdisc i q pr hd ps =>
      simp only [CoreOp.run]
      exact andThen_keep (pres_add_qdisc hp) (fun _ _ h => h)
    | addCls i q pr c ps =>
      simp only [CoreOp.run]
      exact andThen_keep (pres_add_cls hp) (fun _ _ h => h)
    | addFltr i pr ft fl proto par hd ps =>
      simp only [CoreOp.run]
      exact andThen_keep (pres_add_filter hp) (fun _ _ h => h)
    | setMinBandwidth i r =>
      exact pres_smb hp
    | setDelay i d =>
      exact pres_sdl hp
    | setQdisc i q =>
      exact pres_set_qdisc i q hp

theorem claim_C5_witness :
    (demoW.failSet = [] ∧ (getNs demoW 0).is_default = false ∧
      (getNs demoW 1).is_default = false ∧
      (connect 0 1 ("a") ("b") demoW).1 = Except.ok (3, 4) ∧ pairOkW demoW) ∧
    ((getIf (connect 0 1 ("a") ("b") demoW).2 3).pair = some 4 ∧
      (getIf (connect 0 1 ("a") ("b") demoW).2 4).pair = some 3) ∧
    pairOkW (CoreOp.run (CoreOp.setDelay 0 ("2ms")) demoW).2 :=
  ⟨⟨rfl, by decide, by decide, by decide, pairOkL_of_pairOkB (by decide)⟩,
   claim_C5.1 demoW 0 1 ("a") ("b") (3, 4) rfl (by decide) (by decide) (by decide),
   claim_C5.2 (CoreOp.setDelay 0 ("2ms")) demoW (pairOkL_of_pairOkB (by decide))⟩
